import Mathlib

/-!
Verification of the Dream Weaver application core (src/App.tsx and src/unnamed/part_000).

The React component state (six `useState` hooks plus one `useRef`) is embedded as the
structure `AppState`; each event handler of the component becomes a pure state
transformer.  The two external collaborators (the analysis service and the chat
service) are passed in as oracle functions returning `Except`, mirroring the
promise-based calls that either resolve or throw; handlers that may call them
additionally return the list of calls they issued, so that "no call is made" is
expressible.
-/

namespace DreamWeaver

/-- `DreamState` enumeration from src/unnamed/part_000. -/
inductive DreamState where
  | IDLE
  | RECORDING
  | ANALYZING
  | COMPLETE
  | ERROR
  deriving DecidableEq, Repr

/-- `DreamData` interface from src/unnamed/part_000. -/
structure DreamData where
  transcript : String
  imageUrl : String
  interpretation : String
  deriving DecidableEq, Repr

/-- Chat roles: the `role` field of `ChatMessage` is `'user' | 'model'`. -/
inductive Role where
  | user
  | model
  deriving DecidableEq, Repr

/-- `ChatMessage` interface from src/unnamed/part_000. -/
structure ChatMessage where
  role : Role
  text : String
  deriving DecidableEq, Repr

/-- One entry of `event.results`: `{ transcript: string, isFinal: boolean }`. -/
structure RecognitionResult where
  transcript : String
  isFinal : Bool
  deriving DecidableEq, Repr

/-- A speech-recognition event `{ resultIndex, results[] }` delivered to `onresult`. -/
structure RecognitionEvent where
  resultIndex : Nat
  results : List RecognitionResult
  deriving DecidableEq, Repr

/-- The structure returned by `generateDreamAnalysis` and spread into `DreamData`. -/
structure AnalysisResult where
  interpretation : String
  imageUrl : String
  deriving DecidableEq, Repr

/-- The mutable state of the `App` component: the six `useState` hooks and the
`finalTranscriptRef` ref, from src/App.tsx. -/
structure AppState where
  dreamState : DreamState
  dreamData : Option DreamData
  chatHistory : List ChatMessage
  isChatLoading : Bool
  error : Option String
  transcript : String
  finalTranscriptRef : String
  deriving DecidableEq, Repr

/-- Error message set by `handleStartRecording` when `recognition` is null. -/
def notSupportedMsg : String := "Speech recognition is not supported in your browser."

/-- Error message set by `handleStopRecording` for a transcript under 10 trimmed chars. -/
def tooShortMsg : String :=
  "Dream recording is too short. Please try again and describe your dream in more detail."

/-- Error message set by the `catch` branch of `handleStopRecording`. -/
def analysisFailedMsg : String :=
  "Failed to analyze the dream. The spirits are troubled. Please try again."

/-- Fallback model reply appended by the `catch` branch of `handleSendMessage`. -/
def chatFallbackMsg : String :=
  "I\x27m sorry, I lost my train of thought. Could you ask that again?"

/-- `resetState` from src/App.tsx: back to IDLE, clearing data, history, error and
both transcript buffers.  (`isChatLoading` is not touched by the source.) -/
def resetState (s : AppState) : AppState :=
  { s with
    dreamState := DreamState.IDLE
    dreamData := none
    chatHistory := []
    error := none
    transcript := ""
    finalTranscriptRef := "" }

/-- `handleStartRecording` from src/App.tsx.  `recognitionAvailable` models the
feature test `if (!recognition)`: when the capability is absent the handler sets an
error and moves to ERROR without starting; otherwise it clears both transcript
buffers, installs the `onresult` handler, starts recognition and moves to RECORDING. -/
def handleStartRecording (recognitionAvailable : Bool) (s : AppState) : AppState :=
  if !recognitionAvailable then
    { s with
      error := some notSupportedMsg
      dreamState := DreamState.ERROR }
  else
    { s with
      transcript := ""
      finalTranscriptRef := ""
      dreamState := DreamState.RECORDING }

/-- The loop body of `recognition.onresult`: walk the result segments in order,
appending final segments to `finalTranscriptChunk` and interim segments to
`interimTranscript` (returned as the first and second component respectively). -/
def processResults (rs : List RecognitionResult) : String × String :=
  rs.foldl
    (fun acc r =>
      if r.isFinal then (acc.1 ++ r.transcript, acc.2)
      else (acc.1, acc.2 ++ r.transcript))
    ("", "")

/-- `recognition.onresult` from src/App.tsx: process the segments from
`event.resultIndex` to the end, extend `finalTranscriptRef` by the finalized chunk,
and recompute the displayed transcript as `finalTranscriptRef + interimTranscript`. -/
def handleRecognitionResult (s : AppState) (e : RecognitionEvent) : AppState :=
  let p := processResults (e.results.drop e.resultIndex)
  let newFinal := s.finalTranscriptRef ++ p.1
  { s with
    finalTranscriptRef := newFinal
    transcript := newFinal ++ p.2 }

/-- A sequence of recognition events delivered in order, each fully processed
before the next. -/
def processEvents (s : AppState) (es : List RecognitionEvent) : AppState :=
  es.foldl handleRecognitionResult s

/-- JavaScript `String.prototype.trim`: remove leading and trailing whitespace,
as called on `finalTranscriptRef.current` in `handleStopRecording`.  (Defined by
structural recursion so that concrete instances evaluate.) -/
def jsTrim (s : String) : String :=
  String.mk (((s.data.dropWhile Char.isWhitespace).reverse.dropWhile
    Char.isWhitespace).reverse)

/-- `handleStopRecording` from src/App.tsx.  `analyze` is the
`generateDreamAnalysis` oracle (the promise either resolves with an
`AnalysisResult` or rejects).  Returns the final state together with the list of
analysis calls issued (each recorded by its transcript argument). -/
def handleStopRecording (analyze : String → Except String AnalysisResult)
    (s : AppState) : AppState × List String :=
  let s1 := { s with dreamState := DreamState.ANALYZING }
  let finalTranscript := jsTrim s1.finalTranscriptRef
  if finalTranscript.length < 10 then
    ({ s1 with
        error := some tooShortMsg
        dreamState := DreamState.ERROR }, [])
  else
    match analyze finalTranscript with
    | Except.ok result =>
        ({ s1 with
            dreamData := some
              { transcript := finalTranscript
                imageUrl := result.imageUrl
                interpretation := result.interpretation }
            dreamState := DreamState.COMPLETE }, [finalTranscript])
    | Except.error _ =>
        ({ s1 with
            error := some analysisFailedMsg
            dreamState := DreamState.ERROR }, [finalTranscript])

/-- One chat call as issued by `handleSendMessage`: the arguments passed to
`getChatResponse` (dream transcript, interpretation, history including the new
user message). -/
structure ChatCall where
  transcript : String
  interpretation : String
  history : List ChatMessage
  deriving DecidableEq, Repr

/-- `handleSendMessage` from src/App.tsx.  `chat` is the `getChatResponse` oracle.
If no `dreamData` is stored the handler returns immediately.  Otherwise it appends
the user message, sets the loading flag, calls the oracle, appends the model reply
(or the fixed fallback on error) and clears the loading flag.  Returns the final
state together with the list of chat calls issued. -/
def handleSendMessage (chat : ChatCall → Except String String)
    (s : AppState) (message : String) : AppState × List ChatCall :=
  match s.dreamData with
  | none => (s, [])
  | some dd =>
    let newHistory := s.chatHistory ++ [{ role := Role.user, text := message }]
    let s1 := { s with chatHistory := newHistory, isChatLoading := true }
    let call : ChatCall :=
      { transcript := dd.transcript
        interpretation := dd.interpretation
        history := newHistory }
    match chat call with
    | Except.ok modelResponse =>
        ({ s1 with
            chatHistory := newHistory ++ [{ role := Role.model, text := modelResponse }]
            isChatLoading := false }, [call])
    | Except.error _ =>
        ({ s1 with
            chatHistory := newHistory ++ [{ role := Role.model, text := chatFallbackMsg }]
            isChatLoading := false }, [call])

/-- The finalized segments of a list of result entries, concatenated in order. -/
def finalsConcat (rs : List RecognitionResult) : String :=
  String.join ((rs.filter (fun r => r.isFinal)).map (fun r => r.transcript))

/-- The interim segments of a list of result entries, concatenated in order. -/
def interimsConcat (rs : List RecognitionResult) : String :=
  String.join ((rs.filter (fun r => !r.isFinal)).map (fun r => r.transcript))

/-- The new segments an event delivers: `results` from `resultIndex` on. -/
def newSegments (e : RecognitionEvent) : List RecognitionResult :=
  e.results.drop e.resultIndex

/-- The concatenation of the finalized segments of a whole event sequence: what the
spec calls "all finalized segments processed so far". -/
def sessionFinals (es : List RecognitionEvent) : String :=
  String.join (es.map (fun e => finalsConcat (newSegments e)))

/-- The model reply appended by `handleSendMessage`: the resolved value of the
chat call on success, the fixed fallback apology on failure. -/
def modelReply (chat : ChatCall → Except String String) (call : ChatCall) : String :=
  match chat call with
  | Except.ok r => r
  | Except.error _ => chatFallbackMsg

/-! ### String helper lemmas -/

theorem string_join_nil : String.join [] = "" := rfl

theorem string_join_cons (s : String) (ss : List String) :
    String.join (s :: ss) = s ++ String.join ss := by
  apply String.ext
  simp

theorem string_join_append (a b : List String) :
    String.join (a ++ b) = String.join a ++ String.join b := by
  apply String.ext
  simp

/-! ### The onresult loop computes the spec-level concatenations -/

theorem finalsConcat_nil : finalsConcat [] = "" := rfl

theorem interimsConcat_nil : interimsConcat [] = "" := rfl

theorem finalsConcat_cons (r : RecognitionResult) (rs : List RecognitionResult) :
    finalsConcat (r :: rs) =
      (if r.isFinal then r.transcript else "") ++ finalsConcat rs := by
  cases hr : r.isFinal <;>
    simp [finalsConcat, List.filter_cons, hr, string_join_cons, String.empty_append]

theorem interimsConcat_cons (r : RecognitionResult) (rs : List RecognitionResult) :
    interimsConcat (r :: rs) =
      (if r.isFinal then "" else r.transcript) ++ interimsConcat rs := by
  cases hr : r.isFinal <;>
    simp [interimsConcat, List.filter_cons, hr, string_join_cons, String.empty_append]

theorem processResults_go (rs : List RecognitionResult) :
    ∀ f i : String,
      rs.foldl
        (fun acc r =>
          if r.isFinal then (acc.1 ++ r.transcript, acc.2)
          else (acc.1, acc.2 ++ r.transcript))
        (f, i) = (f ++ finalsConcat rs, i ++ interimsConcat rs) := by
  induction rs with
  | nil =>
      intro f i
      simp [finalsConcat_nil, interimsConcat_nil, String.append_empty]
  | cons r rs ih =>
      intro f i
      cases hr : r.isFinal <;>
        simp [hr, ih, finalsConcat_cons, interimsConcat_cons, String.empty_append,
          String.append_assoc]

theorem processResults_eq (rs : List RecognitionResult) :
    processResults rs = (finalsConcat rs, interimsConcat rs) := by
  simpa [String.empty_append] using processResults_go rs "" ""

/-! ### Per-event and per-sequence transcript lemmas -/

theorem handleRecognitionResult_ref (s : AppState) (e : RecognitionEvent) :
    (handleRecognitionResult s e).finalTranscriptRef =
      s.finalTranscriptRef ++ finalsConcat (newSegments e) := by
  simp [handleRecognitionResult, processResults_eq, newSegments]

theorem handleRecognitionResult_transcript (s : AppState) (e : RecognitionEvent) :
    (handleRecognitionResult s e).transcript =
      s.finalTranscriptRef ++ finalsConcat (newSegments e) ++
        interimsConcat (newSegments e) := by
  simp [handleRecognitionResult, processResults_eq, newSegments]

theorem sessionFinals_nil : sessionFinals [] = "" := rfl

theorem sessionFinals_append (a b : List RecognitionEvent) :
    sessionFinals (a ++ b) = sessionFinals a ++ sessionFinals b := by
  simp [sessionFinals, string_join_append]

theorem processEvents_ref (es : List RecognitionEvent) :
    ∀ s : AppState,
      (processEvents s es).finalTranscriptRef =
        s.finalTranscriptRef ++ sessionFinals es := by
  induction es with
  | nil =>
      intro s
      simp [processEvents, sessionFinals_nil, String.append_empty]
  | cons e es ih =>
      intro s
      have hstep : processEvents s (e :: es) = processEvents (handleRecognitionResult s e) es :=
        rfl
      rw [hstep, ih, handleRecognitionResult_ref]
      rw [show sessionFinals (e :: es) =
            finalsConcat (newSegments e) ++ sessionFinals es from string_join_cons _ _]
      rw [String.append_assoc]

theorem processEvents_append_last (s : AppState) (es : List RecognitionEvent)
    (e : RecognitionEvent) :
    processEvents s (es ++ [e]) = handleRecognitionResult (processEvents s es) e := by
  simp [processEvents, List.foldl_append]

/-- In a session whose accumulator starts empty, after any event sequence the
displayed transcript is the concatenated finalized segments of the whole
sequence followed by the interim segments of the last event only. -/
theorem cleared_session_transcript (s : AppState) (hs : s.finalTranscriptRef = "")
    (es : List RecognitionEvent) (e : RecognitionEvent) :
    (processEvents s (es ++ [e])).transcript =
      sessionFinals (es ++ [e]) ++ interimsConcat (newSegments e) := by
  rw [processEvents_append_last, handleRecognitionResult_transcript, processEvents_ref, hs,
    String.empty_append, sessionFinals_append]
  rw [show sessionFinals [e] = finalsConcat (newSegments e) by
    simp [sessionFinals, string_join_cons, string_join_nil, String.append_empty]]

/-! ### Claim theorems -/

/-- Claim C1: for every sequence of recognition events processed from the start of
a recording session (empty accumulator), after each event (here: after the last
event `e` of an arbitrary sequence `es ++ [e]`) the displayed transcript equals
the concatenation of all finalized segments processed so far plus the interim
segments of the most recent event only; earlier interim text never recurs. -/
theorem display_transcript_invariant (s : AppState)
    (hs : s.finalTranscriptRef = "")
    (es : List RecognitionEvent) (e : RecognitionEvent) :
    (processEvents s (es ++ [e])).transcript =
      sessionFinals (es ++ [e]) ++ interimsConcat (newSegments e) :=
  cleared_session_transcript s hs es e

/-- Witness for C1 at a concrete state and event. -/
theorem display_transcript_invariant_witness :
    (AppState.mk DreamState.RECORDING none [] false none "" "").finalTranscriptRef
        = "" ∧
    (processEvents (AppState.mk DreamState.RECORDING none [] false none "" "")
        ([RecognitionEvent.mk 0 [RecognitionResult.mk "hello " true]] ++
          [RecognitionEvent.mk 1 [RecognitionResult.mk "hello " true,
            RecognitionResult.mk "wor" false]])).transcript =
      sessionFinals
          ([RecognitionEvent.mk 0 [RecognitionResult.mk "hello " true]] ++
            [RecognitionEvent.mk 1 [RecognitionResult.mk "hello " true,
              RecognitionResult.mk "wor" false]]) ++
        interimsConcat (newSegments (RecognitionEvent.mk 1
          [RecognitionResult.mk "hello " true, RecognitionResult.mk "wor" false])) :=
  ⟨rfl, display_transcript_invariant _ rfl _ _⟩

/-- Claim C2: stopping with a trimmed accumulated transcript of fewer than 10
characters ends in ERROR with the short-transcript message and issues no
analysis call. -/
theorem short_transcript_errors_without_call
    (analyze : String → Except String AnalysisResult) (s : AppState)
    (h : (jsTrim s.finalTranscriptRef).length < 10) :
    (handleStopRecording analyze s).1.dreamState = DreamState.ERROR ∧
    (handleStopRecording analyze s).1.error = some tooShortMsg ∧
    (handleStopRecording analyze s).2 = [] := by
  simp [handleStopRecording, h]

/-- Witness for C2 at a concrete short recording. -/
theorem short_transcript_errors_without_call_witness :
    (jsTrim (AppState.mk DreamState.RECORDING none [] false none "hi" "hi"
        ).finalTranscriptRef).length < 10 ∧
    ((handleStopRecording (fun t => Except.ok (AnalysisResult.mk t t))
        (AppState.mk DreamState.RECORDING none [] false none "hi" "hi")).1.dreamState
          = DreamState.ERROR ∧
     (handleStopRecording (fun t => Except.ok (AnalysisResult.mk t t))
        (AppState.mk DreamState.RECORDING none [] false none "hi" "hi")).1.error
          = some tooShortMsg ∧
     (handleStopRecording (fun t => Except.ok (AnalysisResult.mk t t))
        (AppState.mk DreamState.RECORDING none [] false none "hi" "hi")).2 = []) :=
  ⟨by decide, short_transcript_errors_without_call _ _ (by decide)⟩

/-- Claim C3: stopping with a trimmed transcript of at least 10 characters whose
analysis call succeeds ends in COMPLETE; the stored DreamData carries exactly the
trimmed transcript that was passed to the call, and the returned interpretation
and imageUrl; exactly that one call was issued. -/
theorem successful_analysis_completes
    (analyze : String → Except String AnalysisResult) (s : AppState)
    (result : AnalysisResult)
    (hlen : 10 ≤ (jsTrim s.finalTranscriptRef).length)
    (hok : analyze (jsTrim s.finalTranscriptRef) = Except.ok result) :
    (handleStopRecording analyze s).1.dreamState = DreamState.COMPLETE ∧
    (handleStopRecording analyze s).1.dreamData =
      some (DreamData.mk (jsTrim s.finalTranscriptRef) result.imageUrl
        result.interpretation) ∧
    (handleStopRecording analyze s).2 = [jsTrim s.finalTranscriptRef] := by
  have h : ¬ (jsTrim s.finalTranscriptRef).length < 10 := Nat.not_lt.mpr hlen
  simp [handleStopRecording, h, hok]

/-- Witness for C3 at the spec scenario transcript. -/
theorem successful_analysis_completes_witness :
    10 ≤ (jsTrim (AppState.mk DreamState.RECORDING none [] false none ""
        "I was flying over a purple ocean and then I woke up"
        ).finalTranscriptRef).length ∧
    (fun _ : String =>
        (Except.ok (AnalysisResult.mk "A dream of freedom." "http://x/img.png") :
          Except String AnalysisResult))
        (jsTrim (AppState.mk DreamState.RECORDING none [] false none ""
          "I was flying over a purple ocean and then I woke up").finalTranscriptRef)
      = Except.ok (AnalysisResult.mk "A dream of freedom." "http://x/img.png") ∧
    ((handleStopRecording
        (fun _ => Except.ok (AnalysisResult.mk "A dream of freedom." "http://x/img.png"))
        (AppState.mk DreamState.RECORDING none [] false none ""
          "I was flying over a purple ocean and then I woke up")).1.dreamState
          = DreamState.COMPLETE ∧
     (handleStopRecording
        (fun _ => Except.ok (AnalysisResult.mk "A dream of freedom." "http://x/img.png"))
        (AppState.mk DreamState.RECORDING none [] false none ""
          "I was flying over a purple ocean and then I woke up")).1.dreamData =
        some (DreamData.mk
          (jsTrim (AppState.mk DreamState.RECORDING none [] false none ""
            "I was flying over a purple ocean and then I woke up").finalTranscriptRef)
          (AnalysisResult.mk "A dream of freedom." "http://x/img.png").imageUrl
          (AnalysisResult.mk "A dream of freedom." "http://x/img.png").interpretation) ∧
     (handleStopRecording
        (fun _ => Except.ok (AnalysisResult.mk "A dream of freedom." "http://x/img.png"))
        (AppState.mk DreamState.RECORDING none [] false none ""
          "I was flying over a purple ocean and then I woke up")).2 =
        [jsTrim (AppState.mk DreamState.RECORDING none [] false none ""
          "I was flying over a purple ocean and then I woke up").finalTranscriptRef]) :=
  ⟨by decide, rfl, successful_analysis_completes _ _ _ (by decide) rfl⟩

/-- Claim C4: when the analysis call fails, the machine ends in ERROR with a
non-empty message and the stored DreamData remains null. -/
theorem failed_analysis_errors
    (analyze : String → Except String AnalysisResult) (s : AppState) (msg : String)
    (hlen : 10 ≤ (jsTrim s.finalTranscriptRef).length)
    (herr : analyze (jsTrim s.finalTranscriptRef) = Except.error msg)
    (hd : s.dreamData = none) :
    (handleStopRecording analyze s).1.dreamState = DreamState.ERROR ∧
    (handleStopRecording analyze s).1.error = some analysisFailedMsg ∧
    analysisFailedMsg ≠ "" ∧
    (handleStopRecording analyze s).1.dreamData = none := by
  have h : ¬ (jsTrim s.finalTranscriptRef).length < 10 := Nat.not_lt.mpr hlen
  refine ⟨?_, ?_, by decide, ?_⟩ <;> simp [handleStopRecording, h, herr, hd]

/-- Witness for C4 at a concrete failing analysis. -/
theorem failed_analysis_errors_witness :
    10 ≤ (jsTrim (AppState.mk DreamState.RECORDING none [] false none ""
        "I was flying over a purple ocean and then I woke up"
        ).finalTranscriptRef).length ∧
    (fun _ : String => (Except.error "network down" : Except String AnalysisResult))
        (jsTrim (AppState.mk DreamState.RECORDING none [] false none ""
          "I was flying over a purple ocean and then I woke up").finalTranscriptRef)
      = Except.error "network down" ∧
    (AppState.mk DreamState.RECORDING none [] false none ""
        "I was flying over a purple ocean and then I woke up").dreamData = none ∧
    ((handleStopRecording
        (fun _ : String => (Except.error "network down" : Except String AnalysisResult))
        (AppState.mk DreamState.RECORDING none [] false none ""
          "I was flying over a purple ocean and then I woke up")).1.dreamState
          = DreamState.ERROR ∧
     (handleStopRecording
        (fun _ : String => (Except.error "network down" : Except String AnalysisResult))
        (AppState.mk DreamState.RECORDING none [] false none ""
          "I was flying over a purple ocean and then I woke up")).1.error
          = some analysisFailedMsg ∧
     analysisFailedMsg ≠ "" ∧
     (handleStopRecording
        (fun _ : String => (Except.error "network down" : Except String AnalysisResult))
        (AppState.mk DreamState.RECORDING none [] false none ""
          "I was flying over a purple ocean and then I woke up")).1.dreamData = none) :=
  ⟨by decide, rfl, rfl, failed_analysis_errors _ _ "network down" (by decide) rfl rfl⟩

/-- Claim C5: sending a message in COMPLETE with DreamData present appends exactly
one user message with the sent text and then exactly one model message (the reply
on success, the fixed fallback on failure); the final history is the prior history
plus those two messages in that order, regardless of success or failure. -/
theorem send_message_appends_user_then_model
    (chat : ChatCall → Except String String) (s : AppState) (dd : DreamData)
    (message : String)
    (_hstate : s.dreamState = DreamState.COMPLETE)
    (hd : s.dreamData = some dd) :
    ((handleSendMessage chat s message).1.chatHistory =
       s.chatHistory ++
         [ChatMessage.mk Role.user message,
          ChatMessage.mk Role.model (modelReply chat
            (ChatCall.mk dd.transcript dd.interpretation
              (s.chatHistory ++ [ChatMessage.mk Role.user message])))] ∧
     (∀ r : String,
        chat (ChatCall.mk dd.transcript dd.interpretation
            (s.chatHistory ++ [ChatMessage.mk Role.user message])) = Except.ok r →
        modelReply chat (ChatCall.mk dd.transcript dd.interpretation
            (s.chatHistory ++ [ChatMessage.mk Role.user message])) = r) ∧
     (∀ msg : String,
        chat (ChatCall.mk dd.transcript dd.interpretation
            (s.chatHistory ++ [ChatMessage.mk Role.user message])) = Except.error msg →
        modelReply chat (ChatCall.mk dd.transcript dd.interpretation
            (s.chatHistory ++ [ChatMessage.mk Role.user message])) = chatFallbackMsg)) := by
  refine ⟨?_, ?_, ?_⟩
  · cases hres : chat (ChatCall.mk dd.transcript dd.interpretation
        (s.chatHistory ++ [ChatMessage.mk Role.user message])) <;>
      simp [handleSendMessage, hd, modelReply, hres]
  · intro r hres
    simp [modelReply, hres]
  · intro msg hres
    simp [modelReply, hres]

/-- Witness for C5 at a concrete COMPLETE state with a succeeding chat oracle. -/
theorem send_message_appends_user_then_model_witness :
    (AppState.mk DreamState.COMPLETE
        (some (DreamData.mk "a dream" "http://x/img.png" "meaningful")) [] false none
        "" "").dreamState = DreamState.COMPLETE ∧
    (AppState.mk DreamState.COMPLETE
        (some (DreamData.mk "a dream" "http://x/img.png" "meaningful")) [] false none
        "" "").dreamData
      = some (DreamData.mk "a dream" "http://x/img.png" "meaningful") ∧
    ((handleSendMessage (fun _ => Except.ok "Indeed.")
        (AppState.mk DreamState.COMPLETE
          (some (DreamData.mk "a dream" "http://x/img.png" "meaningful")) [] false none
          "" "") "what does it mean?").1.chatHistory =
       (AppState.mk DreamState.COMPLETE
          (some (DreamData.mk "a dream" "http://x/img.png" "meaningful")) [] false none
          "" "").chatHistory ++
         [ChatMessage.mk Role.user "what does it mean?",
          ChatMessage.mk Role.model (modelReply (fun _ => Except.ok "Indeed.")
            (ChatCall.mk (DreamData.mk "a dream" "http://x/img.png"
                "meaningful").transcript
              (DreamData.mk "a dream" "http://x/img.png" "meaningful").interpretation
              ((AppState.mk DreamState.COMPLETE
                  (some (DreamData.mk "a dream" "http://x/img.png" "meaningful")) []
                  false none "" "").chatHistory ++
                [ChatMessage.mk Role.user "what does it mean?"])))] ∧
     (∀ r : String,
        (fun _ : ChatCall => (Except.ok "Indeed." : Except String String))
            (ChatCall.mk (DreamData.mk "a dream" "http://x/img.png"
                "meaningful").transcript
              (DreamData.mk "a dream" "http://x/img.png" "meaningful").interpretation
              ((AppState.mk DreamState.COMPLETE
                  (some (DreamData.mk "a dream" "http://x/img.png" "meaningful")) []
                  false none "" "").chatHistory ++
                [ChatMessage.mk Role.user "what does it mean?"])) = Except.ok r →
        modelReply (fun _ => Except.ok "Indeed.")
            (ChatCall.mk (DreamData.mk "a dream" "http://x/img.png"
                "meaningful").transcript
              (DreamData.mk "a dream" "http://x/img.png" "meaningful").interpretation
              ((AppState.mk DreamState.COMPLETE
                  (some (DreamData.mk "a dream" "http://x/img.png" "meaningful")) []
                  false none "" "").chatHistory ++
                [ChatMessage.mk Role.user "what does it mean?"])) = r) ∧
     (∀ msg : String,
        (fun _ : ChatCall => (Except.ok "Indeed." : Except String String))
            (ChatCall.mk (DreamData.mk "a dream" "http://x/img.png"
                "meaningful").transcript
              (DreamData.mk "a dream" "http://x/img.png" "meaningful").interpretation
              ((AppState.mk DreamState.COMPLETE
                  (some (DreamData.mk "a dream" "http://x/img.png" "meaningful")) []
                  false none "" "").chatHistory ++
                [ChatMessage.mk Role.user "what does it mean?"])) = Except.error msg →
        modelReply (fun _ => Except.ok "Indeed.")
            (ChatCall.mk (DreamData.mk "a dream" "http://x/img.png"
                "meaningful").transcript
              (DreamData.mk "a dream" "http://x/img.png" "meaningful").interpretation
              ((AppState.mk DreamState.COMPLETE
                  (some (DreamData.mk "a dream" "http://x/img.png" "meaningful")) []
                  false none "" "").chatHistory ++
                [ChatMessage.mk Role.user "what does it mean?"])) = chatFallbackMsg)) :=
  ⟨rfl, rfl, send_message_appends_user_then_model _ _ _ "what does it mean?" rfl rfl⟩

/-- Claim C6: reset from COMPLETE or ERROR returns to IDLE with empty transcript
buffers, empty chat history, no error, and no DreamData. -/
theorem reset_returns_to_idle (s : AppState)
    (_h : s.dreamState = DreamState.COMPLETE ∨ s.dreamState = DreamState.ERROR) :
    (resetState s).dreamState = DreamState.IDLE ∧
    (resetState s).transcript = "" ∧
    (resetState s).finalTranscriptRef = "" ∧
    (resetState s).chatHistory = [] ∧
    (resetState s).error = none ∧
    (resetState s).dreamData = none := by
  simp [resetState]

/-- Witness for C6 at a concrete ERROR state. -/
theorem reset_returns_to_idle_witness :
    ((AppState.mk DreamState.ERROR none [] false (some notSupportedMsg) "" ""
        ).dreamState = DreamState.COMPLETE ∨
     (AppState.mk DreamState.ERROR none [] false (some notSupportedMsg) "" ""
        ).dreamState = DreamState.ERROR) ∧
    ((resetState (AppState.mk DreamState.ERROR none [] false (some notSupportedMsg)
        "" "")).dreamState = DreamState.IDLE ∧
     (resetState (AppState.mk DreamState.ERROR none [] false (some notSupportedMsg)
        "" "")).transcript = "" ∧
     (resetState (AppState.mk DreamState.ERROR none [] false (some notSupportedMsg)
        "" "")).finalTranscriptRef = "" ∧
     (resetState (AppState.mk DreamState.ERROR none [] false (some notSupportedMsg)
        "" "")).chatHistory = [] ∧
     (resetState (AppState.mk DreamState.ERROR none [] false (some notSupportedMsg)
        "" "")).error = none ∧
     (resetState (AppState.mk DreamState.ERROR none [] false (some notSupportedMsg)
        "" "")).dreamData = none) :=
  ⟨Or.inr rfl, reset_returns_to_idle _ (Or.inr rfl)⟩

/-- Claim C7: starting when the speech-recognition capability is unavailable ends
in ERROR with the fixed not-supported message and never enters RECORDING. -/
theorem unavailable_capability_errors (s : AppState) :
    (handleStartRecording false s).dreamState = DreamState.ERROR ∧
    (handleStartRecording false s).error = some notSupportedMsg ∧
    (handleStartRecording false s).dreamState ≠ DreamState.RECORDING := by
  refine ⟨rfl, rfl, by simp [handleStartRecording]⟩

/-- Claim C8: send-message leaves the DreamState, the stored DreamData, the error
message and both transcript fields unchanged, whether the chat call succeeds or
fails (only the chat history and the loading flag may change). -/
theorem send_message_frame (chat : ChatCall → Except String String)
    (s : AppState) (message : String) :
    (handleSendMessage chat s message).1.dreamState = s.dreamState ∧
    (handleSendMessage chat s message).1.dreamData = s.dreamData ∧
    (handleSendMessage chat s message).1.error = s.error ∧
    (handleSendMessage chat s message).1.transcript = s.transcript ∧
    (handleSendMessage chat s message).1.finalTranscriptRef = s.finalTranscriptRef := by
  cases hd : s.dreamData with
  | none => simp [handleSendMessage, hd]
  | some dd =>
      cases hres : chat (ChatCall.mk dd.transcript dd.interpretation
          (s.chatHistory ++ [ChatMessage.mk Role.user message])) <;>
        simp [handleSendMessage, hd, hres]

/-- Claim C9: starting a recording with the capability available clears both
transcript buffers before any event arrives and enters RECORDING, so the session
transcript after any events is determined by those events alone — the accumulator
is exactly the session's finalized text and the display is that plus the last
event's interim text, with no contribution from the prior state. -/
theorem start_recording_clears_transcript (s : AppState)
    (es : List RecognitionEvent) (e : RecognitionEvent) :
    (handleStartRecording true s).transcript = "" ∧
    (handleStartRecording true s).finalTranscriptRef = "" ∧
    (handleStartRecording true s).dreamState = DreamState.RECORDING ∧
    (processEvents (handleStartRecording true s) es).finalTranscriptRef =
      sessionFinals es ∧
    (processEvents (handleStartRecording true s) (es ++ [e])).transcript =
      sessionFinals (es ++ [e]) ++ interimsConcat (newSegments e) := by
  refine ⟨rfl, rfl, rfl, ?_, ?_⟩
  · rw [processEvents_ref]
    simp [handleStartRecording, String.empty_append]
  · exact cleared_session_transcript _ rfl es e

/-- Claim C10: send-message with no stored DreamData is a no-op: the state is
returned unchanged and no chat call is issued. -/
theorem send_message_without_dreamdata_noop
    (chat : ChatCall → Except String String) (s : AppState) (message : String)
    (hd : s.dreamData = none) :
    handleSendMessage chat s message = (s, []) := by
  simp [handleSendMessage, hd]

/-- Witness for C10 at a concrete state without DreamData. -/
theorem send_message_without_dreamdata_noop_witness :
    (AppState.mk DreamState.IDLE none [] false none "" "").dreamData = none ∧
    handleSendMessage (fun _ => Except.ok "hello")
        (AppState.mk DreamState.IDLE none [] false none "" "") "hey" =
      (AppState.mk DreamState.IDLE none [] false none "" "", []) :=
  ⟨rfl, send_message_without_dreamdata_noop _ _ "hey" rfl⟩

end DreamWeaver
